import Mathlib

/-!
Verification of the diagrammer collaboration server (Rust, `src-tauri/src`)
against its natural-language specification.

The development shallowly embeds the server's data model and operations:

* `Json` models `serde_json::Value` (numbers restricted to integers, which
  covers every field the server inspects);
* association lists model `HashMap` / `serde_json::Map` (iteration order is
  unspecified in Rust, so any canonical representation is a valid model);
* `StoreState` models the document store's on-disk state (`server/documents.rs`):
  the in-memory index, the `docs/` directory, and the `index.json` file;
* `ServerState` / `handle_message` model the per-connection dispatcher
  (`server/mod.rs`), with file-system writes that the code performs modelled
  as succeeding and the one fallible `remove_file` call given an explicit
  outcome parameter;
* the JWT and bcrypt external crates are modelled at the information level:
  a compact token string is represented by its parse (claims plus signature),
  and the HMAC is modelled as a collision-free tag.
-/

set_option maxRecDepth 4000

/-- Model of `serde_json::Value`.  Numbers are modelled as integers; the
server only reads numeric fields via `as_u64`, so this loses nothing the
code observes. -/
inductive Json where
  | null : Json
  | bool (b : Bool) : Json
  | num (n : Int) : Json
  | str (s : String) : Json
  | arr (elems : List Json) : Json
  | obj (fields : List (String × Json)) : Json
deriving Repr, BEq

/-- `Value::as_str`. -/
def Json.asStr : Json → Option String
  | .str s => some s
  | _ => none

/-- `Value::as_u64`: only non-negative integral numbers convert. -/
def Json.asU64 : Json → Option Nat
  | .num n => if 0 ≤ n then some n.toNat else none
  | _ => none

/-- `Value::as_bool`. -/
def Json.asBool : Json → Option Bool
  | .bool b => some b
  | _ => none

/-- `Value::as_array`. -/
def Json.asArr : Json → Option (List Json)
  | .arr xs => some xs
  | _ => none

/-- `Value::get(key)` on an object: first binding for the key (serde maps
have unique keys).  Returns `none` on non-objects, as in serde. -/
def Json.get : Json → String → Option Json
  | .obj fields, k => (fields.find? (fun p => p.1 == k)).map (·.2)
  | _, _ => none

/-- Association-list lookup, modelling `HashMap::get`. -/
def alistLookup [BEq κ] (l : List (κ × α)) (k : κ) : Option α :=
  (l.find? (fun p => p.1 == k)).map (·.2)

/-- Association-list membership, modelling `HashMap::contains_key`. -/
def alistContains [BEq κ] (l : List (κ × α)) (k : κ) : Bool :=
  l.any (fun p => p.1 == k)

/-- Association-list insert-or-replace, modelling `HashMap::insert`.
Iteration order of a `HashMap` is unspecified, so the canonical
"new binding first" representation is a faithful model of the map. -/
def alistInsert [BEq κ] (l : List (κ × α)) (k : κ) (v : α) : List (κ × α) :=
  (k, v) :: l.filter (fun p => !(p.1 == k))

/-- Association-list removal, modelling `HashMap::remove`. -/
def alistErase [BEq κ] (l : List (κ × α)) (k : κ) : List (κ × α) :=
  l.filter (fun p => !(p.1 == k))

/-- `Value::index_mut` assignment `doc[k] = v` as used by the store on
document bodies (always objects at the call sites; Rust would panic on
other variants, which the model leaves unchanged). -/
def Json.set : Json → String → Json → Json
  | .obj fields, k, v => .obj (alistInsert fields k v)
  | j, _, _ => j

/-- `DocumentShare` (server/documents.rs). -/
structure DocumentShare where
  user_id : String
  user_name : String
  permission : String
  shared_at : Nat
deriving Repr, DecidableEq

/-- `DocumentMetadata` (server/documents.rs). -/
structure DocumentMetadata where
  id : String
  name : String
  page_count : Nat
  modified_at : Nat
  created_at : Nat
  is_team_document : Option Bool := none
  locked_by : Option String := none
  locked_by_name : Option String := none
  locked_at : Option Nat := none
  owner_id : Option String := none
  owner_name : Option String := none
  shared_with : Option (List DocumentShare) := none
  last_modified_by : Option String := none
  last_modified_by_name : Option String := none
deriving Repr, DecidableEq

/-- serde deserialization of one `DocumentShare` from JSON (camelCase
field names; all four fields required, as serde derive demands). -/
def shareFromJson (j : Json) : Option DocumentShare := do
  let user_id ← (j.get "userId").bind Json.asStr
  let user_name ← (j.get "userName").bind Json.asStr
  let permission ← (j.get "permission").bind Json.asStr
  let shared_at ← (j.get "sharedAt").bind Json.asU64
  pure { user_id, user_name, permission, shared_at }

/-- serde serialization of a `DocumentShare` (camelCase). -/
def shareToJson (s : DocumentShare) : Json :=
  .obj [("userId", .str s.user_id), ("userName", .str s.user_name),
        ("permission", .str s.permission), ("sharedAt", .num s.shared_at)]

/-- Element-wise deserialization of a share list; stops at the first
failing element, as serde does for `Vec`. -/
def sharesListFromJson : List Json → Option (List DocumentShare)
  | [] => some []
  | j :: rest => do
    let s ← shareFromJson j
    let ss ← sharesListFromJson rest
    pure (s :: ss)

/-- `serde_json::from_value::<Vec<DocumentShare>>`: every element must
deserialize (used by `save_document`). -/
def sharesFromJson (j : Json) : Option (List DocumentShare) :=
  (j.asArr).bind sharesListFromJson

/-- Lenient share parsing by `filter_map(|v| from_value(v).ok())`
(used by `transfer_ownership`). -/
def sharesFromJsonLenient (j : Json) : List DocumentShare :=
  ((j.asArr).getD []).filterMap shareFromJson

/-- State of one `DocumentStore` (server/documents.rs): the in-memory
metadata index, the contents of the `docs/` directory (parsed JSON bodies
keyed by id, i.e. file `docs/<id>.json`), and the `index.json` file
content (`none` until first written). -/
structure StoreState where
  index : List (String × DocumentMetadata)
  docsDir : List (String × Json)
  indexFile : Option (List (String × DocumentMetadata))
deriving Repr

/-- `DocumentStore::list_documents`: snapshot of index values. -/
def list_documents (st : StoreState) : List DocumentMetadata :=
  st.index.map (·.2)

/-- `DocumentStore::get_metadata`. -/
def get_metadata (st : StoreState) (doc_id : String) : Option DocumentMetadata :=
  alistLookup st.index doc_id

/-- `DocumentStore::get_document`: index membership check, then file read
and parse.  The file-read error message carries an OS detail that the
model fixes to a constant. -/
def get_document (st : StoreState) (doc_id : String) : Except String Json :=
  if !(alistContains st.index doc_id) then
    .error "Document not found"
  else
    match alistLookup st.docsDir doc_id with
    | some body => .ok body
    | none => .error "Failed to read document: No such file or directory"

/-- `DocumentStore::save_document`.  `now` is the wall clock in
milliseconds (`SystemTime::now` default for `modifiedAt`).  File writes
are modelled as succeeding; the only error path in the model is the
missing/non-string `id`, exactly the code's first bail-out. -/
def save_document (st : StoreState) (doc : Json) (now : Nat) :
    Except String Unit × StoreState :=
  match (doc.get "id").bind Json.asStr with
  | none => (.error "Document missing 'id' field", st)
  | some id =>
    let name := ((doc.get "name").bind Json.asStr).getD "Untitled"
    let page_count := (((doc.get "pageOrder").bind Json.asArr).map List.length).getD 1
    let modified_at := ((doc.get "modifiedAt").bind Json.asU64).getD now
    let created_at := ((doc.get "createdAt").bind Json.asU64).getD modified_at
    let metadata : DocumentMetadata :=
      { id, name, page_count, modified_at, created_at,
        is_team_document := (doc.get "isTeamDocument").bind Json.asBool,
        locked_by := (doc.get "lockedBy").bind Json.asStr,
        locked_by_name := (doc.get "lockedByName").bind Json.asStr,
        locked_at := (doc.get "lockedAt").bind Json.asU64,
        owner_id := (doc.get "ownerId").bind Json.asStr,
        owner_name := (doc.get "ownerName").bind Json.asStr,
        shared_with := (doc.get "sharedWith").bind sharesFromJson,
        last_modified_by := (doc.get "lastModifiedBy").bind Json.asStr,
        last_modified_by_name := (doc.get "lastModifiedByName").bind Json.asStr }
    let docsDir := alistInsert st.docsDir id doc
    let index := alistInsert st.index id metadata
    (.ok (), { index, docsDir, indexFile := some index })

/-- `DocumentStore::delete_document`.  `removeFile` is the outcome of the
one fallible `std::fs::remove_file` call (reached only when the file
exists); `index.json` rewriting is modelled as succeeding. -/
def delete_document (st : StoreState) (doc_id : String)
    (removeFile : Except String Unit) : Except String Bool × StoreState :=
  if !(alistContains st.index doc_id) then
    (.ok false, st)
  else if alistContains st.docsDir doc_id then
    match removeFile with
    | .error e => (.error ("Failed to delete document file: " ++ e), st)
    | .ok () =>
      let docsDir := alistErase st.docsDir doc_id
      let index := alistErase st.index doc_id
      (.ok true, { index, docsDir, indexFile := some index })
  else
    let index := alistErase st.index doc_id
    (.ok true, { st with index, indexFile := some index })

/-- `DocumentStore::transfer_ownership` (server/documents.rs). -/
def transfer_ownership (st : StoreState) (doc_id new_owner_id new_owner_name
    previous_owner_id : String) (now : Nat) : Except String Unit × StoreState :=
  match get_document st doc_id with
  | .error e => (.error e, st)
  | .ok doc =>
    let doc := doc.set "ownerId" (.str new_owner_id)
    let doc := doc.set "ownerName" (.str new_owner_name)
    let shares := sharesFromJsonLenient ((doc.get "sharedWith").getD .null)
    let shares := shares.filter (fun s => !(s.user_id == new_owner_id))
    let shares :=
      if !(shares.any (fun s => s.user_id == previous_owner_id)) then
        shares ++ [{ user_id := previous_owner_id,
                     user_name := ((doc.get "lastModifiedByName").bind
                       Json.asStr).getD "Previous Owner",
                     permission := "edit", shared_at := now }]
      else shares
    let doc := doc.set "sharedWith" (.arr (shares.map shareToJson))
    save_document st doc now

/-- `update_document_shares` (server/documents.rs): rewrite `sharedWith`
from the request entries, dropping `"none"` entries. -/
def update_document_shares (st : StoreState) (doc_id : String)
    (shares : List (String × String × String)) (now : Nat) :
    Except String Unit × StoreState :=
  match get_document st doc_id with
  | .error e => (.error e, st)
  | .ok doc =>
    let new_shares := (shares.filter (fun s => !(s.2.2 == "none"))).map
      (fun s => ({ user_id := s.1, user_name := s.2.1, permission := s.2.2,
                   shared_at := now } : DocumentShare))
    let doc := doc.set "sharedWith" (.arr (new_shares.map shareToJson))
    save_document st doc now

/-- `Permission` (server/permissions.rs), ordered `None < Viewer < Editor < Owner`. -/
inductive Permission where
  | None : Permission
  | Viewer : Permission
  | Editor : Permission
  | Owner : Permission
deriving Repr, DecidableEq

/-- Numeric rank backing the Rust `#[derive(PartialOrd, Ord)]` on the
C-like enum with discriminants 0..3. -/
def Permission.rank : Permission → Nat
  | .None => 0
  | .Viewer => 1
  | .Editor => 2
  | .Owner => 3

instance : LE Permission := ⟨fun a b => a.rank ≤ b.rank⟩
instance : LT Permission := ⟨fun a b => a.rank < b.rank⟩

instance (a b : Permission) : Decidable (a ≤ b) :=
  inferInstanceAs (Decidable (a.rank ≤ b.rank))

instance (a b : Permission) : Decidable (a < b) :=
  inferInstanceAs (Decidable (a.rank < b.rank))

/-- Rust `str::to_lowercase` (character-wise lowercasing; agrees with
Unicode on every string the server stores). -/
def strToLower (s : String) : String := ⟨s.data.map Char.toLower⟩

/-- `Permission::from_str` (server/permissions.rs): lowercases, then maps
the share-permission strings. -/
def Permission.fromString (s : String) : Permission :=
  match strToLower s with
  | "owner" => .Owner
  | "edit" => .Editor
  | "editor" => .Editor
  | "view" => .Viewer
  | "viewer" => .Viewer
  | _ => .None

/-- `Permission::as_str`. -/
def Permission.asString : Permission → String
  | .Owner => "owner"
  | .Editor => "edit"
  | .Viewer => "view"
  | .None => "none"

/-- `get_user_permission` (server/permissions.rs): owner first, then the
admin override, then the first matching share entry, else `None`. -/
def get_user_permission (metadata : DocumentMetadata) (user_id : String)
    (user_role : Option String) : Permission :=
  if metadata.owner_id = some user_id then
    .Owner
  else if user_role = some "admin" then
    .Owner
  else
    match (metadata.shared_with.getD []).find? (fun sh => sh.user_id == user_id) with
    | some share => Permission.fromString share.permission
    | none => .None

/-- `PermissionError` (server/permissions.rs). -/
inductive PermissionError where
  | AccessDenied (required actual : Permission)
  | DocumentNotFound
  | NotAuthenticated
deriving Repr, DecidableEq

/-- `check_permission` (server/permissions.rs). -/
def check_permission (st : StoreState) (doc_id : String)
    (user_id : Option String) (user_role : Option String)
    (required : Permission) : Except PermissionError Permission :=
  match user_id with
  | some uid =>
    if uid = "" then .error .NotAuthenticated
    else
      match get_metadata st doc_id with
      | none => .error .DocumentNotFound
      | some metadata =>
        let actual := get_user_permission metadata uid user_role
        if required ≤ actual then .ok actual
        else .error (.AccessDenied required actual)
  | none => .error .NotAuthenticated

/-- `check_delete_permission`: delete requires `Owner`. -/
def check_delete_permission (st : StoreState) (doc_id : String)
    (user_id : Option String) (user_role : Option String) :
    Except PermissionError Permission :=
  check_permission st doc_id user_id user_role .Owner

/-- `to_error_string` error codes (server/permissions.rs,
`error_codes`). -/
def permissionErrorCode : PermissionError → String
  | .AccessDenied required _ =>
    match required with
    | .Owner => "ERR_DELETE_FORBIDDEN"
    | .Editor => "ERR_EDIT_FORBIDDEN"
    | .Viewer => "ERR_VIEW_FORBIDDEN"
    | .None => "ERR_ACCESS_DENIED"
  | .DocumentNotFound => "ERR_DOC_NOT_FOUND"
  | .NotAuthenticated => "ERR_NOT_AUTHENTICATED"

/-- JWT claims (auth/jwt.rs `Claims`). -/
structure Claims where
  sub : String
  username : String
  role : String
  iat : Nat
  exp : Nat
deriving Repr, DecidableEq

/-- `TokenConfig` (auth/jwt.rs). -/
structure TokenConfig where
  secret : String
  expiry_secs : Nat
deriving Repr, DecidableEq

/-- Models the external `jsonwebtoken` crate's HS256 signature: an HMAC
over the canonical encoding of the claims, modelled as a collision-free
tag (real HMAC collisions are computationally infeasible and the code
never relies on them). -/
def hmacSign (secret : String) (c : Claims) : String :=
  secret ++ "|" ++ c.sub ++ "|" ++ c.username ++ "|" ++ c.role ++ "|" ++
    toString c.iat ++ "|" ++ toString c.exp

/-- A compact JWT string, represented by its parse: the claims payload
and the signature (base64 compact serialization is a bijection onto such
pairs, so nothing is lost). -/
structure Token where
  claims : Claims
  sig : String
deriving Repr, DecidableEq

/-- `create_token` (auth/jwt.rs): stamps `iat = now`, `exp = iat + ttl`,
signs, and returns the token with `expires_at_ms = exp * 1000`.  `now` is
the wall clock in seconds. -/
def create_token (user_id username role : String) (config : TokenConfig)
    (now : Nat) : Except String (Token × Nat) :=
  let exp := now + config.expiry_secs
  let claims : Claims := { sub := user_id, username, role, iat := now, exp }
  .ok ({ claims, sig := hmacSign config.secret claims }, exp * 1000)

/-- `validate_token` (auth/jwt.rs): `jsonwebtoken::decode` with
`Validation::default()` — signature check plus expiry with the crate's
default 60-second leeway (expired when `exp < now - leeway`). -/
def validate_token (t : Token) (config : TokenConfig) (now : Nat) :
    Except String Claims :=
  if !(t.sig == hmacSign config.secret t.claims) then
    .error "Token validation error: InvalidSignature"
  else if t.claims.exp + 60 < now then
    .error "Token validation error: ExpiredSignature"
  else
    .ok t.claims

/-- `UserRole` (auth/users.rs). -/
inductive UserRole where
  | Admin : UserRole
  | User : UserRole
deriving Repr, DecidableEq

/-- `UserRole`'s `Display` implementation. -/
def UserRole.display : UserRole → String
  | .Admin => "admin"
  | .User => "user"

/-- `User` (auth/users.rs). -/
structure User where
  id : String
  display_name : String
  username : String
  password_hash : String
  role : UserRole
  created_at : Nat
  last_login_at : Option Nat := none
deriving Repr, DecidableEq

/-- `UserStore::get_user_by_username`: first user (in map order) with the
given username. -/
def get_user_by_username (users : List (String × User)) (username : String) :
    Option User :=
  (users.map (·.2)).find? (fun u => u.username == username)

/-- `UserStore::update_last_login`: stamps the wall clock in ms if the id
is present. -/
def update_last_login (users : List (String × User)) (id : String)
    (now_ms : Nat) : List (String × User) :=
  users.map (fun p =>
    if p.1 == id then (p.1, { p.2 with last_login_at := some now_ms }) else p)

/-- Models the external bcrypt crate's salted hash (auth/password.rs):
verification recovers the password from the tag.  Only the round-trip
behaviour matters to the server. -/
def hash_password (password : String) (salt : Nat) : String :=
  "bcrypt$" ++ toString salt ++ "$" ++ password

/-- Models bcrypt `verify` (auth/password.rs `verify_password`). -/
def verify_password (password hash : String) : Except String Bool :=
  match hash.splitOn "$" with
  | ["bcrypt", _, pw] => .ok (pw == password)
  | _ => .error "Invalid hash format"

/-- `JwtClaims` as deserialized by the server's own `validate_jwt`
(server/mod.rs) — no `iat` field. -/
structure JwtClaims where
  sub : String
  username : String
  role : String
  exp : Nat
deriving Repr, DecidableEq

/-- `validate_jwt` (server/mod.rs): `jsonwebtoken::decode` with
`Validation::new(HS256)` (signature plus expiry with 60s leeway),
followed by the handler's own strict `exp < now` check. -/
def validate_jwt (t : Token) (secret : String) (now : Nat) :
    Except String JwtClaims :=
  if !(t.sig == hmacSign secret t.claims) then
    .error "JWT validation failed: InvalidSignature"
  else if t.claims.exp + 60 < now then
    .error "JWT validation failed: ExpiredSignature"
  else if t.claims.exp < now then
    .error "Token expired"
  else
    .ok { sub := t.claims.sub, username := t.claims.username,
          role := t.claims.role, exp := t.claims.exp }

/-- Parse of the compact token string carried inside an AUTH frame's JSON
string (the model's concrete rendering of the base64 compact layout; no
theorem relies on its details). -/
def parseTokenString (s : String) : Option Token :=
  match s.splitOn "\n" with
  | [sub, username, role, iatS, expS, sig] =>
    match iatS.toNat?, expS.toNat? with
    | some iat, some exp => some ⟨⟨sub, username, role, iat, exp⟩, sig⟩
    | _, _ => none
  | _ => none

/-- Message type tags (server/protocol.rs). -/
def MESSAGE_SYNC : Nat := 0
def MESSAGE_AWARENESS : Nat := 1
def MESSAGE_AUTH : Nat := 2
def MESSAGE_DOC_LIST : Nat := 3
def MESSAGE_DOC_GET : Nat := 4
def MESSAGE_DOC_SAVE : Nat := 5
def MESSAGE_DOC_DELETE : Nat := 6
def MESSAGE_DOC_EVENT : Nat := 7
def MESSAGE_ERROR : Nat := 8
def MESSAGE_AUTH_RESPONSE : Nat := 9
def MESSAGE_JOIN_DOC : Nat := 10
def MESSAGE_AUTH_LOGIN : Nat := 11
def MESSAGE_DOC_SHARE : Nat := 12
def MESSAGE_DOC_TRANSFER : Nat := 13

/-- `DocEventType` (server/protocol.rs). -/
inductive DocEventType where
  | Created : DocEventType
  | Updated : DocEventType
  | Deleted : DocEventType
deriving Repr, DecidableEq

/-- Typed view of an outgoing frame's JSON payload (server/protocol.rs
response structures).  `raw` carries forwarded opaque frames (SYNC /
AWARENESS traffic, which the server never inspects). -/
inductive Payload where
  | raw (j : Json) : Payload
  | authResp (success : Bool) (user_id username role : Option String)
      (token : Option Token) (token_expires_at : Option Nat)
      (error : Option String) : Payload
  | docList (request_id : String) (documents : List DocumentMetadata) : Payload
  | docGet (request_id : String) (document : Option Json)
      (error : Option String) : Payload
  | docSave (request_id : String) (success : Bool)
      (error : Option String) : Payload
  | docDelete (request_id : String) (success : Bool)
      (error : Option String) : Payload
  | docEvent (event_type : DocEventType) (doc_id : String)
      (metadata : Option DocumentMetadata) (user_id : String) : Payload
  | errorResp (request_id : Option String) (error : String) : Payload
deriving Repr

/-- An effect of a handler: a direct send to one client's outbound queue
(`send_to_client`) or an envelope pushed onto the broadcast channel
(`broadcast_to_doc` / `broadcast_to_all`). -/
inductive OutMsg where
  | toClient (client_id : Nat) (msg_type : Nat) (payload : Payload) : OutMsg
  | broadcast (doc_id : Option String) (exclude_client : Option Nat)
      (msg_type : Nat) (payload : Payload) : OutMsg
deriving Repr

/-- `ClientState` (server/mod.rs). -/
structure ClientState where
  id : Nat
  user_id : Option String := none
  username : Option String := none
  role : Option String := none
  current_doc_id : Option String := none
  authenticated : Bool := false
deriving Repr, DecidableEq

/-- `BroadcastMessage` (server/mod.rs): envelope on the broadcast
channel; `data` is the already-encoded frame (type tag plus payload). -/
structure BroadcastMessage where
  doc_id : Option String
  exclude_client : Option Nat
  data : Nat × Payload

/-- `ServerState` (server/mod.rs): the session table, the document
store, and the authentication facilities. -/
structure ServerState where
  clients : List (Nat × ClientState)
  store : StoreState
  jwt_secret : String
  user_store : Option (List (String × User))
  token_config : TokenConfig

/-- The broadcast-consumer filter (server/mod.rs `handle_socket`,
`broadcast_task`): decides whether an envelope is pushed to the client's
outbound queue. -/
def should_send (clients : List (Nat × ClientState)) (client_id : Nat)
    (msg : BroadcastMessage) : Bool :=
  match alistLookup clients client_id with
  | some client =>
    if msg.exclude_client == some client_id then false
    else
      match msg.doc_id with
      | some doc_id => client.current_doc_id == some doc_id
      | none => client.authenticated
  | none => false

/-- `send_to_client` (server/mod.rs): a send that silently drops if the
client is no longer registered. -/
def send_to_client (clients : List (Nat × ClientState)) (client_id : Nat)
    (msg_type : Nat) (payload : Payload) : List OutMsg :=
  if alistContains clients client_id then [.toClient client_id msg_type payload]
  else []

/-- In-place mutation of one session's fields through
`clients.write().await.get_mut(&client_id)`. -/
def updateClient (clients : List (Nat × ClientState)) (client_id : Nat)
    (f : ClientState → ClientState) : List (Nat × ClientState) :=
  clients.map (fun p => if p.1 == client_id then (p.1, f p.2) else p)

/-- `send_auth_response` (server/mod.rs). -/
def send_auth_response (clients : List (Nat × ClientState)) (client_id : Nat)
    (success : Bool) (user_id username role : Option String)
    (token : Option Token) (token_expires_at : Option Nat)
    (error : Option String) : List OutMsg :=
  send_to_client clients client_id MESSAGE_AUTH_RESPONSE
    (.authResp success user_id username role token token_expires_at error)

/-- `handle_auth` (server/mod.rs): token authentication.  `now_s` is the
wall clock in seconds. -/
def handle_auth (client_id : Nat) (payload : Json) (st : ServerState)
    (now_s : Nat) : ServerState × List OutMsg :=
  match (payload.asStr).bind parseTokenString with
  | none =>
    (st, send_auth_response st.clients client_id false none none none none none
      (some "Invalid token format"))
  | some token =>
    match validate_jwt token st.jwt_secret now_s with
    | .ok claims =>
      let clients := updateClient st.clients client_id (fun c =>
        { c with user_id := some claims.sub, username := some claims.username,
                 role := some claims.role, authenticated := true })
      ({ st with clients },
       send_auth_response clients client_id true (some claims.sub)
         (some claims.username) (some claims.role) none none none)
    | .error e =>
      (st, send_auth_response st.clients client_id false none none none none none
        (some e))

/-- `handle_auth_login` (server/mod.rs): username/password login.
`now_ms` stamps the last-login time, `now_s` the token's `iat`. -/
def handle_auth_login (client_id : Nat) (payload : Json) (st : ServerState)
    (now_ms now_s : Nat) : ServerState × List OutMsg :=
  let fail (msg : String) : ServerState × List OutMsg :=
    (st, send_auth_response st.clients client_id false none none none none none
      (some msg))
  match ((payload.get "username").bind Json.asStr,
         (payload.get "password").bind Json.asStr) with
  | (some username, some password) =>
    match st.user_store with
    | none => fail "Server not configured for login"
    | some users =>
      match get_user_by_username users username with
      | none => fail "Invalid username or password"
      | some user =>
        match verify_password password user.password_hash with
        | .ok true =>
          let users := update_last_login users user.id now_ms
          match create_token user.id user.username user.role.display
              st.token_config now_s with
          | .error _ => fail "Failed to create session"
          | .ok (token, expires_at) =>
            let clients := updateClient st.clients client_id (fun c =>
              { c with user_id := some user.id, username := some user.username,
                       role := some user.role.display, authenticated := true })
            ({ st with clients, user_store := some users },
             send_auth_response clients client_id true (some user.id)
               (some user.username) (some user.role.display) (some token)
               (some expires_at) none)
        | .ok false => fail "Invalid username or password"
        | .error _ => fail "Authentication error"
  | _ => fail "Invalid request format"

/-- `handle_sync` (server/mod.rs): forward the opaque frame to the other
sessions on the sender's current document; no-op when no document is
joined. -/
def handle_sync (client_id : Nat) (payload : Json) (st : ServerState) :
    ServerState × List OutMsg :=
  match (alistLookup st.clients client_id).bind (·.current_doc_id) with
  | some doc_id =>
    (st, [.broadcast (some doc_id) (some client_id) MESSAGE_SYNC (.raw payload)])
  | none => (st, [])

/-- `handle_awareness` (server/mod.rs): same routing as SYNC. -/
def handle_awareness (client_id : Nat) (payload : Json) (st : ServerState) :
    ServerState × List OutMsg :=
  match (alistLookup st.clients client_id).bind (·.current_doc_id) with
  | some doc_id =>
    (st, [.broadcast (some doc_id) (some client_id) MESSAGE_AWARENESS (.raw payload)])
  | none => (st, [])

/-- `handle_doc_list` (server/mod.rs): respond with the full metadata
snapshot. -/
def handle_doc_list (client_id : Nat) (payload : Json) (st : ServerState) :
    ServerState × List OutMsg :=
  match (payload.get "requestId").bind Json.asStr with
  | none => (st, [])
  | some request_id =>
    (st, send_to_client st.clients client_id MESSAGE_DOC_LIST
      (.docList request_id (list_documents st.store)))

/-- `handle_doc_get` (server/mod.rs). -/
def handle_doc_get (client_id : Nat) (payload : Json) (st : ServerState) :
    ServerState × List OutMsg :=
  match ((payload.get "requestId").bind Json.asStr,
         (payload.get "docId").bind Json.asStr) with
  | (some request_id, some doc_id) =>
    let response :=
      match get_document st.store doc_id with
      | .ok doc => Payload.docGet request_id (some doc) none
      | .error e => Payload.docGet request_id none (some e)
    (st, send_to_client st.clients client_id MESSAGE_DOC_GET response)
  | _ => (st, [])

/-- `handle_doc_save` (server/mod.rs): save, then broadcast a DOC_EVENT
whose kind is chosen by looking the id up in the index *after* the save,
then answer the requester. -/
def handle_doc_save (client_id : Nat) (payload : Json) (st : ServerState)
    (now_ms : Nat) : ServerState × List OutMsg :=
  match ((payload.get "requestId").bind Json.asStr, payload.get "document") with
  | (some request_id, some document) =>
    let doc_id := ((document.get "id").bind Json.asStr).getD ""
    let user_id := ((alistLookup st.clients client_id).bind (·.user_id)).getD ""
    match save_document st.store document now_ms with
    | (.ok (), store) =>
      let metadata := get_metadata store doc_id
      let event := Payload.docEvent
        (if metadata.isSome then .Updated else .Created) doc_id metadata user_id
      let st := { st with store }
      (st, .broadcast none none MESSAGE_DOC_EVENT event ::
        send_to_client st.clients client_id MESSAGE_DOC_SAVE
          (.docSave request_id true none))
    | (.error e, store) =>
      let st := { st with store }
      (st, send_to_client st.clients client_id MESSAGE_DOC_SAVE
        (.docSave request_id false (some e)))
  | _ => (st, [])

/-- `handle_doc_delete` (server/mod.rs): delete, broadcast a `deleted`
DOC_EVENT on success, then answer the requester.  File removal is
modelled as succeeding (the handler passes the happy-path outcome). -/
def handle_doc_delete (client_id : Nat) (payload : Json) (st : ServerState) :
    ServerState × List OutMsg :=
  match ((payload.get "requestId").bind Json.asStr,
         (payload.get "docId").bind Json.asStr) with
  | (some request_id, some doc_id) =>
    let user_id := ((alistLookup st.clients client_id).bind (·.user_id)).getD ""
    match delete_document st.store doc_id (.ok ()) with
    | (.ok deleted, store) =>
      let st := { st with store }
      let events : List OutMsg :=
        if deleted then
          [.broadcast none none MESSAGE_DOC_EVENT
            (.docEvent .Deleted doc_id none user_id)]
        else []
      (st, events ++ send_to_client st.clients client_id MESSAGE_DOC_DELETE
        (.docDelete request_id deleted none))
    | (.error e, store) =>
      let st := { st with store }
      (st, send_to_client st.clients client_id MESSAGE_DOC_DELETE
        (.docDelete request_id false (some e)))
  | _ => (st, [])

/-- `handle_join_doc` (server/mod.rs): set the session's current
document. -/
def handle_join_doc (client_id : Nat) (payload : Json) (st : ServerState) :
    ServerState × List OutMsg :=
  match (payload.get "docId").bind Json.asStr with
  | none => (st, [])
  | some doc_id =>
    let clients := updateClient st.clients client_id
      (fun c => { c with current_doc_id := some doc_id })
    ({ st with clients }, [])

/-- `handle_message` (server/mod.rs): the dispatcher.  Routes by the
frame's type tag with **no authentication gate** — every handler runs for
authenticated and unauthenticated sessions alike.  Unknown tags
(including DOC_SHARE and DOC_TRANSFER, which have no handler) are
ignored. -/
def handle_message (client_id : Nat) (msg_type : Nat) (payload : Json)
    (st : ServerState) (now_ms now_s : Nat) : ServerState × List OutMsg :=
  if msg_type = MESSAGE_AUTH then handle_auth client_id payload st now_s
  else if msg_type = MESSAGE_AUTH_LOGIN then
    handle_auth_login client_id payload st now_ms now_s
  else if msg_type = MESSAGE_SYNC then handle_sync client_id payload st
  else if msg_type = MESSAGE_AWARENESS then handle_awareness client_id payload st
  else if msg_type = MESSAGE_DOC_LIST then handle_doc_list client_id payload st
  else if msg_type = MESSAGE_DOC_GET then handle_doc_get client_id payload st
  else if msg_type = MESSAGE_DOC_SAVE then
    handle_doc_save client_id payload st now_ms
  else if msg_type = MESSAGE_DOC_DELETE then handle_doc_delete client_id payload st
  else if msg_type = MESSAGE_JOIN_DOC then handle_join_doc client_id payload st
  else (st, [])

theorem alistLookup_insert_self [BEq κ] [LawfulBEq κ] (l : List (κ × α))
    (k : κ) (v : α) : alistLookup (alistInsert l k v) k = some v := by
  simp [alistLookup, alistInsert, List.find?_cons_of_pos]

theorem find?_filter_ne_key [BEq κ] [LawfulBEq κ] (l : List (κ × α))
    (k k' : κ) (h : k' ≠ k) :
    (l.filter (fun p => !(p.1 == k))).find? (fun p => p.1 == k') =
      l.find? (fun p => p.1 == k') := by
  induction l with
  | nil => rfl
  | cons a as ih =>
    by_cases hk : a.1 = k
    · have h1 : (a.1 == k) = true := beq_iff_eq.mpr hk
      have h2 : (a.1 == k') = false := by
        apply beq_eq_false_iff_ne.mpr
        rw [hk]
        exact fun hh => h hh.symm
      simp [List.filter_cons, h1, List.find?_cons, h2, ih]
    · have h1 : (a.1 == k) = false := beq_eq_false_iff_ne.mpr hk
      by_cases hk' : a.1 = k'
      · have h2 : (a.1 == k') = true := beq_iff_eq.mpr hk'
        simp [List.filter_cons, h1, List.find?_cons, h2]
      · have h2 : (a.1 == k') = false := beq_eq_false_iff_ne.mpr hk'
        simp [List.filter_cons, h1, List.find?_cons, h2, ih]

theorem alistLookup_insert_ne [BEq κ] [LawfulBEq κ] (l : List (κ × α))
    (k k' : κ) (v : α) (h : k' ≠ k) :
    alistLookup (alistInsert l k v) k' = alistLookup l k' := by
  have h1 : (k == k') = false := beq_eq_false_iff_ne.mpr (fun hh => h hh.symm)
  simp only [alistLookup, alistInsert, List.find?_cons, h1]
  rw [find?_filter_ne_key l k k' h]

theorem alistContains_erase_self [BEq κ] [LawfulBEq κ] (l : List (κ × α))
    (k : κ) : alistContains (alistErase l k) k = false := by
  simp [alistContains, alistErase]

theorem Json.get_set_self (fields : List (String × Json)) (k : String)
    (v : Json) : (Json.set (.obj fields) k v).get k = some v :=
  alistLookup_insert_self (α := Json) fields k v

theorem Json.get_set_ne (fields : List (String × Json)) (k k' : String)
    (v : Json) (h : k' ≠ k) :
    (Json.set (.obj fields) k v).get k' = (Json.obj fields).get k' :=
  alistLookup_insert_ne (α := Json) fields k k' v h

theorem shareFromJson_toJson (s : DocumentShare) :
    shareFromJson (shareToJson s) = some s := rfl

theorem sharesListFromJson_map_toJson (l : List DocumentShare) :
    sharesListFromJson (l.map shareToJson) = some l := by
  induction l with
  | nil => rfl
  | cons a as ih => simp [sharesListFromJson, shareFromJson_toJson, ih]

theorem sharesFromJson_roundtrip (l : List DocumentShare) :
    sharesFromJson (.arr (l.map shareToJson)) = some l := by
  simp [sharesFromJson, Json.asArr, sharesListFromJson_map_toJson]

/-- The claim's reference permission mapping, exactly as worded:
`view→Viewer`, `edit` or `editor`→`Editor`, `owner`→`Owner`, any other
string → `None` (no lowercasing, no `viewer`). -/
def claim_permission_map (s : String) : Permission :=
  if s = "view" then .Viewer
  else if s = "edit" ∨ s = "editor" then .Editor
  else if s = "owner" then .Owner
  else .None

/-- The claim's reference definition of the effective permission. -/
def claim_effective_permission (metadata : DocumentMetadata) (user_id : String)
    (role : Option String) : Permission :=
  if metadata.owner_id = some user_id then .Owner
  else if role = some "admin" then .Owner
  else
    match (metadata.shared_with.getD []).find? (fun sh => sh.user_id == user_id) with
    | some share => claim_permission_map share.permission
    | none => .None

/-- The amended reference mapping: the code lowercases the stored string
first and also accepts `viewer` (so `view`/`viewer` → Viewer,
`edit`/`editor` → Editor, `owner` → Owner, case-insensitively). -/
def amended_permission_map (s : String) : Permission :=
  match strToLower s with
  | "owner" => .Owner
  | "edit" => .Editor
  | "editor" => .Editor
  | "view" => .Viewer
  | "viewer" => .Viewer
  | _ => .None

/-- The amended reference definition of the effective permission. -/
def amended_effective_permission (metadata : DocumentMetadata)
    (user_id : String) (role : Option String) : Permission :=
  if metadata.owner_id = some user_id then .Owner
  else if role = some "admin" then .Owner
  else
    match (metadata.shared_with.getD []).find? (fun sh => sh.user_id == user_id) with
    | some share => amended_permission_map share.permission
    | none => .None

/-- Metadata on which the claim's mapping and the code disagree: the
share entry stores the permission string `"viewer"`. -/
def C4_meta : DocumentMetadata :=
  { id := "dx", name := "X", page_count := 1, modified_at := 0, created_at := 0,
    owner_id := some "o",
    shared_with := some [{ user_id := "u", user_name := "U",
                           permission := "viewer", shared_at := 0 }] }

/-- C4 counterexample: for the share permission string `"viewer"` the code
returns `Viewer` while the claim's mapping sends any string other than
`view`/`edit`/`editor`/`owner` to `None`; the two definitions disagree, so
the claim as stated is false. -/
theorem C4_counterexample :
    get_user_permission C4_meta "u" none = .Viewer ∧
    claim_effective_permission C4_meta "u" none = .None ∧
    get_user_permission C4_meta "u" none ≠
      claim_effective_permission C4_meta "u" none := by
  refine ⟨by decide, by decide, by decide⟩

/-- C4 (amended): the effective permission equals the reference
definition with the corrected share mapping — owner first, then the admin
override, then the first matching share entry mapped case-insensitively
with `view`/`viewer`→Viewer, `edit`/`editor`→Editor, `owner`→Owner, any
other string → None, else None. -/
theorem C4_effective_permission_matches_amended_reference
    (metadata : DocumentMetadata) (user_id : String) (role : Option String) :
    get_user_permission metadata user_id role =
      amended_effective_permission metadata user_id role := rfl

/-- The empty document store (fresh data directory). -/
def emptyStore : StoreState := { index := [], docsDir := [], indexFile := none }

/-- C7 counterexample: a body whose `id` is the empty string is accepted —
`save_document` succeeds (writing `docs/.json` and an index entry keyed by
`""`), while the claim says an empty `id` must fail with `InvalidBody`. -/
theorem C7_counterexample :
    (save_document emptyStore (.obj [("id", .str "")]) 7).1 = .ok () ∧
    alistLookup (save_document emptyStore (.obj [("id", .str "")]) 7).2.index ""
      = some { id := "", name := "Untitled", page_count := 1,
               modified_at := 7, created_at := 7 } :=
  ⟨rfl, rfl⟩

/-- C7 (amended): `save_document` fails with the missing-`id` error exactly
when the body's `id` field is absent or not a JSON string (an empty string
is accepted); on that failure the store is left unchanged — no file is
written and the index is untouched. -/
theorem C7_save_invalid_body (st : StoreState) (doc : Json) (now : Nat) :
    ((save_document st doc now).1 = .error "Document missing 'id' field" ↔
      (doc.get "id").bind Json.asStr = none) ∧
    ((doc.get "id").bind Json.asStr = none → (save_document st doc now).2 = st) := by
  cases h : (doc.get "id").bind Json.asStr with
  | none => simp [save_document, h]
  | some id => simp [save_document, h]

/-- C7 witness for the amended theorem: saving a body with no `id` field
leaves the empty store unchanged. -/
theorem C7_save_invalid_body_witness :
    (save_document emptyStore (.obj [("name", .str "Plan")]) 3).2 = emptyStore :=
  (C7_save_invalid_body emptyStore (.obj [("name", .str "Plan")]) 3).2 rfl

/-- A docs directory holding `docs/d.json` while the index has no entry
for `d` (the state a fresh `DocumentStore` loads when `index.json` is
missing or unparseable but document files survive). -/
def C6_state : StoreState :=
  { index := [], docsDir := [("d", .obj [("id", .str "d")])], indexFile := none }

/-- C6 counterexample: the document file for `d` exists, yet
`delete_document` returns `false` (and leaves the file in place), because
the code only consults the index — refuting "returns false only when
neither the file nor the index entry existed". -/
theorem C6_counterexample :
    alistContains C6_state.docsDir "d" = true ∧
    delete_document C6_state "d" (.ok ()) = (.ok false, C6_state) :=
  ⟨rfl, rfl⟩

/-- C6 (amended): `delete_document` returns `false` exactly when the index
had no entry for the id (regardless of the file's existence), and after a
first successful delete a second call returns `false` and leaves the
whole store state — index, docs directory and index file — unchanged. -/
theorem C6_delete_false_iff_and_idempotent (st : StoreState) (doc_id : String)
    (rm : Except String Unit) :
    ((delete_document st doc_id rm).1 = .ok false ↔
      alistContains st.index doc_id = false) ∧
    (∀ st', delete_document st doc_id (.ok ()) = (.ok true, st') →
      ∀ rm', delete_document st' doc_id rm' = (.ok false, st')) := by
  constructor
  · cases h : alistContains st.index doc_id with
    | false => simp [delete_document, h]
    | true =>
      cases hf : alistContains st.docsDir doc_id with
      | false => simp [delete_document, h, hf]
      | true =>
        cases rm with
        | ok u => cases u; simp [delete_document, h, hf]
        | error e => simp [delete_document, h, hf]
  · intro st' hdel rm'
    cases h : alistContains st.index doc_id with
    | false => simp [delete_document, h] at hdel
    | true =>
      cases hf : alistContains st.docsDir doc_id with
      | false =>
        have hres : delete_document st doc_id (.ok ()) =
            (.ok true,
              { st with
                index := alistErase st.index doc_id
                indexFile := some (alistErase st.index doc_id) }) := by
          simp [delete_document, h, hf]
        rw [hres] at hdel
        injection hdel with h1 h2
        have hcon : alistContains st'.index doc_id = false := by
          rw [← h2]
          exact alistContains_erase_self st.index doc_id
        simp [delete_document, hcon]
      | true =>
        have hres : delete_document st doc_id (.ok ()) =
            (.ok true,
              { index := alistErase st.index doc_id
                docsDir := alistErase st.docsDir doc_id
                indexFile := some (alistErase st.index doc_id) }) := by
          simp [delete_document, h, hf]
        rw [hres] at hdel
        injection hdel with h1 h2
        have hcon : alistContains st'.index doc_id = false := by
          rw [← h2]
          exact alistContains_erase_self st.index doc_id
        simp [delete_document, hcon]

/-- A one-document store: the state before the first delete of `d`. -/
def C6w_before : StoreState :=
  { index := [("d", { id := "d", name := "N", page_count := 1,
                      modified_at := 0, created_at := 0 })],
    docsDir := [("d", .obj [("id", .str "d")])], indexFile := none }

/-- The state after the first successful delete of `d`. -/
def C6w_after : StoreState := { index := [], docsDir := [], indexFile := some [] }

/-- C6 witness: a store holding only `d`; the first delete succeeds, and
the amended theorem then gives that the second delete returns `false` and
changes nothing. -/
theorem C6_delete_witness :
    delete_document C6w_after "d" (.ok ()) = (.ok false, C6w_after) :=
  (C6_delete_false_iff_and_idempotent C6w_before "d" (.ok ())).2
    C6w_after rfl (.ok ())

/-- C10: when the index holds an entry for the id and the document file
exists but its removal fails, `delete_document` surfaces the I/O error and
the store is left entirely unchanged: the index entry is retained and the
index file is not rewritten. -/
theorem C10_delete_error_preserves_state (st : StoreState) (doc_id : String)
    (e : String) (hidx : alistContains st.index doc_id = true)
    (hfile : alistContains st.docsDir doc_id = true) :
    delete_document st doc_id (.error e) =
      (.error ("Failed to delete document file: " ++ e), st) := by
  simp [delete_document, hidx, hfile]

/-- One-document store used by the C10 witness. -/
def C10w_state : StoreState :=
  { index := [("d", { id := "d", name := "N", page_count := 1,
                      modified_at := 0, created_at := 0 })],
    docsDir := [("d", .obj [("id", .str "d")])], indexFile := some [] }

/-- C10 witness: concrete one-document store with a failing file removal. -/
theorem C10_delete_error_witness :
    delete_document C10w_state "d" (.error "Permission denied") =
      (.error "Failed to delete document file: Permission denied", C10w_state) :=
  C10_delete_error_preserves_state C10w_state "d" "Permission denied" rfl rfl

/-- C8: for every user id, username, role and config with positive ttl,
validating the freshly issued token with the same config succeeds and
yields claims with `sub = u`, `username = n`, `role = r`,
`exp = iat + ttl > iat`, and the returned `expiresAtMs = exp * 1000`. -/
theorem C8_token_roundtrip (u n r : String) (cfg : TokenConfig) (now : Nat)
    (h : 0 < cfg.expiry_secs) :
    ∃ tok expMs,
      create_token u n r cfg now = .ok (tok, expMs) ∧
      validate_token tok cfg now =
        .ok { sub := u, username := n, role := r, iat := now,
              exp := now + cfg.expiry_secs } ∧
      tok.claims.exp = tok.claims.iat + cfg.expiry_secs ∧
      tok.claims.iat < tok.claims.exp ∧
      expMs = (now + cfg.expiry_secs) * 1000 := by
  refine ⟨_, _, rfl, ?_, rfl, ?_, rfl⟩
  · simp only [validate_token]
    have hsig : ((hmacSign cfg.secret
        { sub := u, username := n, role := r, iat := now,
          exp := now + cfg.expiry_secs } : String) ==
        hmacSign cfg.secret
        { sub := u, username := n, role := r, iat := now,
          exp := now + cfg.expiry_secs }) = true := beq_self_eq_true _
    rw [hsig]
    simp
    omega
  · simp only
    omega

/-- C8 witness: concrete issue/validate round-trip. -/
theorem C8_token_roundtrip_witness :
    ∃ tok expMs,
      create_token "u1" "alice" "admin" { secret := "s", expiry_secs := 3600 }
          1000 = .ok (tok, expMs) ∧
      validate_token tok { secret := "s", expiry_secs := 3600 } 1000 =
        .ok { sub := "u1", username := "alice", role := "admin", iat := 1000,
              exp := 4600 } ∧
      tok.claims.exp = tok.claims.iat + 3600 ∧
      tok.claims.iat < tok.claims.exp ∧
      expMs = 4600 * 1000 :=
  C8_token_roundtrip "u1" "alice" "admin"
    { secret := "s", expiry_secs := 3600 } 1000 (by decide)

/-- C9: for a registered session, the broadcast-consumer filter delivers
an envelope exactly when the envelope's excluded session is not this one
and either the envelope targets the session's current document, or it is
untargeted and the session is authenticated. -/
theorem C9_broadcast_filter (clients : List (Nat × ClientState)) (sid : Nat)
    (c : ClientState) (msg : BroadcastMessage)
    (h : alistLookup clients sid = some c) :
    should_send clients sid msg = true ↔
      (msg.exclude_client ≠ some sid ∧
        ((∃ d, msg.doc_id = some d ∧ c.current_doc_id = some d) ∨
         (msg.doc_id = none ∧ c.authenticated = true))) := by
  unfold should_send
  rw [h]
  cases hex : msg.exclude_client with
  | some x =>
    by_cases hx : x = sid
    · subst hx
      simp [hex]
    · have : ((some x : Option Nat) == some sid) = false := by
        simp [hx]
      rw [this]
      cases hdoc : msg.doc_id with
      | some d => simp [hex, hdoc, hx]
      | none => simp [hex, hdoc, hx]
  | none =>
    have : ((none : Option Nat) == some sid) = false := rfl
    rw [this]
    cases hdoc : msg.doc_id with
    | some d => simp [hex, hdoc]
    | none => simp [hex, hdoc]

/-- Session and envelope for the C9 witness: an authenticated session and
an untargeted envelope with no exclusion. -/
def C9w_client : ClientState := { id := 7, authenticated := true }

/-- Untargeted envelope used by the C9 witness. -/
def C9w_msg : BroadcastMessage :=
  { doc_id := none, exclude_client := none,
    data := (MESSAGE_DOC_EVENT, .docEvent .Deleted "d" none "u") }

/-- C9 witness: the filter delivers the untargeted envelope to the
registered authenticated session. -/
theorem C9_broadcast_filter_witness :
    should_send [(7, C9w_client)] 7 C9w_msg = true :=
  (C9_broadcast_filter [(7, C9w_client)] 7 C9w_client C9w_msg rfl).mpr
    ⟨by simp [C9w_msg], Or.inr ⟨rfl, rfl⟩⟩

/-- Metadata of the one stored document in the C1 scenario. -/
def C1_meta : DocumentMetadata :=
  { id := "d9", name := "Notes", page_count := 1, modified_at := 10,
    created_at := 10 }

/-- C1 scenario: session 1 is connected but NOT authenticated; the store
holds one document. -/
def C1_state : ServerState :=
  { clients := [(1, { id := 1 })],
    store := { index := [("d9", C1_meta)],
               docsDir := [("d9", .obj [("id", .str "d9")])],
               indexFile := some [("d9", C1_meta)] },
    jwt_secret := "s", user_store := none,
    token_config := { secret := "s", expiry_secs := 86400 } }

/-- C1 failing input: an unauthenticated session sends DOC_LIST.  The
dispatcher performs the operation — it reads the store and answers with
the full document list — instead of dropping the message and sending an
`ErrorResponse{error:"NOT_AUTHENTICATED"}` as the claim requires.  The
resulting output is the DOC_LIST response alone; no error of any kind is
produced. -/
theorem C1_unauthenticated_doc_list_is_served :
    (alistLookup C1_state.clients 1).map (·.authenticated) = some false ∧
    handle_message 1 MESSAGE_DOC_LIST (.obj [("requestId", .str "r1")])
        C1_state 0 0 =
      (C1_state, [.toClient 1 MESSAGE_DOC_LIST (.docList "r1" [C1_meta])]) :=
  ⟨rfl, rfl⟩

/-- Metadata of document `d2`, owned by `bob`, with no shares. -/
def C2_meta : DocumentMetadata :=
  { id := "d2", name := "Secret", page_count := 1, modified_at := 10,
    created_at := 10, owner_id := some "bob", owner_name := some "Bob" }

/-- Stored body of `d2`. -/
def C2_body : Json :=
  .obj [("id", .str "d2"), ("name", .str "Secret"), ("ownerId", .str "bob")]

/-- C2 scenario: session 1 is carol, an authenticated plain user, neither
owner of `d2` nor in its share list. -/
def C2_state : ServerState :=
  { clients := [(1, { id := 1, user_id := some "carol",
                      username := some "carol", role := some "user",
                      authenticated := true })],
    store := { index := [("d2", C2_meta)], docsDir := [("d2", C2_body)],
               indexFile := some [("d2", C2_meta)] },
    jwt_secret := "s", user_store := none,
    token_config := { secret := "s", expiry_secs := 86400 } }

/-- C2 failing input: carol, whose effective permission on `d2` is `None`
(below `Owner`; the unused permission module would deny with
`ERR_DELETE_FORBIDDEN`), sends DOC_DELETE — and the handler deletes the
document and broadcasts the `deleted` DOC_EVENT, answering success,
because `handle_doc_delete` never consults the permission evaluator. -/
theorem C2_delete_without_owner_permission :
    get_user_permission C2_meta "carol" (some "user") = .None ∧
    get_user_permission C2_meta "carol" (some "user") < .Owner ∧
    check_delete_permission C2_state.store "d2" (some "carol") (some "user") =
      .error (.AccessDenied .Owner .None) ∧
    permissionErrorCode (.AccessDenied .Owner .None) = "ERR_DELETE_FORBIDDEN" ∧
    handle_message 1 MESSAGE_DOC_DELETE
        (.obj [("requestId", .str "r9"), ("docId", .str "d2")]) C2_state 0 0 =
      ({ C2_state with
          store := { index := [], docsDir := [], indexFile := some [] } },
       [.broadcast none none MESSAGE_DOC_EVENT
          (.docEvent .Deleted "d2" none "carol"),
        .toClient 1 MESSAGE_DOC_DELETE (.docDelete "r9" true none)]) :=
  ⟨rfl, by decide, rfl, rfl, rfl⟩

/-- The saved document of the C3 scenario. -/
def C3_doc : Json :=
  .obj [("id", .str "d1"), ("name", .str "Plan"),
        ("pageOrder", .arr [.str "p1", .str "p2"]),
        ("createdAt", .num 1000), ("modifiedAt", .num 1000)]

/-- C3 scenario: alice is authenticated; the store is empty, so saving
`d1` is a creation. -/
def C3_state : ServerState :=
  { clients := [(1, { id := 1, user_id := some "alice",
                      username := some "alice", role := some "admin",
                      authenticated := true })],
    store := emptyStore,
    jwt_secret := "s", user_store := none,
    token_config := { secret := "s", expiry_secs := 86400 } }

/-- Metadata the save derives for `d1`. -/
def C3_meta : DocumentMetadata :=
  { id := "d1", name := "Plan", page_count := 2, modified_at := 1000,
    created_at := 1000 }

/-- C3 failing input: the index does not contain `d1` before the save, so
the claim requires a DOC_EVENT with eventType `created` — but the handler
looks the id up only AFTER the save (when the index always contains it)
and therefore broadcasts `updated`. -/
theorem C3_create_broadcasts_updated :
    alistContains C3_state.store.index "d1" = false ∧
    handle_message 1 MESSAGE_DOC_SAVE
        (.obj [("requestId", .str "r2"), ("document", C3_doc)]) C3_state 1000 0 =
      ({ C3_state with
          store := { index := [("d1", C3_meta)], docsDir := [("d1", C3_doc)],
                     indexFile := some [("d1", C3_meta)] } },
       [.broadcast none none MESSAGE_DOC_EVENT
          (.docEvent .Updated "d1" (some C3_meta) "alice"),
        .toClient 1 MESSAGE_DOC_SAVE (.docSave "r2" true none)]) :=
  ⟨rfl, rfl⟩

theorem Json.get_obj_insert_self (f : List (String × Json)) (k : String)
    (v : Json) : (Json.obj (alistInsert f k v)).get k = some v :=
  alistLookup_insert_self f k v

theorem Json.get_obj_insert_ne (f : List (String × Json)) (k k' : String)
    (v : Json) (h : k' ≠ k) :
    (Json.obj (alistInsert f k v)).get k' = (Json.obj f).get k' :=
  alistLookup_insert_ne f k k' v h

/-- What `save_document` persists when the body carries an `id`, an
`ownerId` and a serialized share list: the index entry under that id has
exactly that owner and that share list. -/
theorem save_document_owner_shares (st : StoreState)
    (f : List (String × Json)) (now : Nat) (doc_id new_id : String)
    (shares : List DocumentShare)
    (hid : (Json.obj f).get "id" = some (.str doc_id))
    (howner : (Json.obj f).get "ownerId" = some (.str new_id))
    (hshares : (Json.obj f).get "sharedWith" =
      some (.arr (shares.map shareToJson))) :
    (save_document st (.obj f) now).1 = .ok () ∧
    ∃ m, alistLookup (save_document st (.obj f) now).2.index doc_id = some m ∧
      m.owner_id = some new_id ∧ m.shared_with = some shares := by
  simp only [save_document, hid, howner, hshares, Option.some_bind, Json.asStr]
  refine ⟨by trivial, _, alistLookup_insert_self st.index doc_id _, rfl, ?_⟩
  simp [sharesFromJson_roundtrip]

/-- Body whose `sharedWith` lists its own owner. -/
def C5_doc : Json :=
  .obj [("id", .str "d"), ("ownerId", .str "u"),
        ("sharedWith", .arr [.obj [("userId", .str "u"),
                                   ("userName", .str "U"),
                                   ("permission", .str "edit"),
                                   ("sharedAt", .num 0)]])]

/-- C5 counterexample: one `save` from the empty store reaches a state
whose persisted metadata lists the document's own `ownerId` (`u`) among
`sharedWith` — `save_document` persists the body's share list verbatim,
so the claimed invariant fails on reachable states. -/
theorem C5_counterexample :
    (save_document emptyStore C5_doc 5).1 = .ok () ∧
    (alistLookup (save_document emptyStore C5_doc 5).2.index "d").map
        (fun m => (m.owner_id, (m.shared_with.getD []).map (·.user_id))) =
      some (some "u", ["u"]) :=
  ⟨rfl, rfl⟩

/-- C5 (amended): the invariant is only established by
`transfer_ownership`: after a successful transfer (with a stored object
body whose `id` matches and a previous owner distinct from the new one),
the index entry for the document has `ownerId = newOwner` and no
`sharedWith` entry for the new owner.  It does not hold over all states
reachable through `save` / `updateShares`, which persist the input share
list verbatim (see the counterexample). -/
theorem C5_transfer_removes_new_owner_from_shares (st : StoreState)
    (doc_id new_id new_name prev_id : String) (now : Nat)
    (fields : List (String × Json))
    (hidx : alistContains st.index doc_id = true)
    (hfile : alistLookup st.docsDir doc_id = some (.obj fields))
    (hid : (Json.obj fields).get "id" = some (.str doc_id))
    (hne : prev_id ≠ new_id) :
    (transfer_ownership st doc_id new_id new_name prev_id now).1 = .ok () ∧
    ∃ m, alistLookup
        (transfer_ownership st doc_id new_id new_name prev_id now).2.index
        doc_id = some m ∧
      m.owner_id = some new_id ∧
      ∀ sh ∈ m.shared_with.getD [], sh.user_id ≠ new_id := by
  have hget : get_document st doc_id = .ok (.obj fields) := by
    simp [get_document, hidx, hfile]
  simp only [transfer_ownership, hget, Json.set]
  set s0 := sharesFromJsonLenient
    (((Json.obj (alistInsert (alistInsert fields "ownerId" (.str new_id))
        "ownerName" (.str new_name))).get "sharedWith").getD .null) with hs0
  set filtered := s0.filter (fun s => !(s.user_id == new_id)) with hfiltered
  have hmemf : ∀ sh ∈ filtered, sh.user_id ≠ new_id := by
    intro sh hsh
    have h2 := (List.mem_filter.mp hsh).2
    simp only [Bool.not_eq_eq_eq_not, Bool.not_true] at h2
    exact beq_eq_false_iff_ne.mp h2
  have hget3 : ∀ (l : List DocumentShare),
      (Json.obj (alistInsert (alistInsert (alistInsert fields "ownerId"
          (.str new_id)) "ownerName" (.str new_name)) "sharedWith"
          (.arr (l.map shareToJson)))).get "id" = some (.str doc_id) := by
    intro l
    rw [Json.get_obj_insert_ne _ _ _ _ (by decide),
        Json.get_obj_insert_ne _ _ _ _ (by decide),
        Json.get_obj_insert_ne _ _ _ _ (by decide)]
    exact hid
  have hown3 : ∀ (l : List DocumentShare),
      (Json.obj (alistInsert (alistInsert (alistInsert fields "ownerId"
          (.str new_id)) "ownerName" (.str new_name)) "sharedWith"
          (.arr (l.map shareToJson)))).get "ownerId" = some (.str new_id) := by
    intro l
    rw [Json.get_obj_insert_ne _ _ _ _ (by decide),
        Json.get_obj_insert_ne _ _ _ _ (by decide)]
    exact Json.get_obj_insert_self fields "ownerId" (.str new_id)
  have hsh3 : ∀ (l : List DocumentShare),
      (Json.obj (alistInsert (alistInsert (alistInsert fields "ownerId"
          (.str new_id)) "ownerName" (.str new_name)) "sharedWith"
          (.arr (l.map shareToJson)))).get "sharedWith" =
        some (.arr (l.map shareToJson)) := by
    intro l
    exact Json.get_obj_insert_self _ "sharedWith" _
  cases hany : filtered.any (fun s => s.user_id == prev_id) with
  | true =>
    simp only [hany, Bool.not_true, Bool.false_eq_true, if_false]
    obtain ⟨h1, m, h2, h3, h4⟩ :=
      save_document_owner_shares st _ now doc_id new_id filtered
        (hget3 filtered) (hown3 filtered) (hsh3 filtered)
    refine ⟨h1, m, h2, h3, ?_⟩
    rw [h4]
    simpa using hmemf
  | false =>
    simp only [hany, Bool.not_false, if_true]
    obtain ⟨h1, m, h2, h3, h4⟩ :=
      save_document_owner_shares st _ now doc_id new_id _
        (hget3 _) (hown3 _) (hsh3 _)
    refine ⟨h1, m, h2, h3, ?_⟩
    rw [h4]
    simp only [Option.getD_some]
    intro sh hsh
    rcases List.mem_append.mp hsh with hmem | hmem
    · exact hmemf sh hmem
    · have := List.mem_singleton.mp hmem
      subst this
      exact hne

/-- Stored body fields for the C5 witness document. -/
def C5w_fields : List (String × Json) :=
  [("id", .str "d1"), ("ownerId", .str "alice"), ("ownerName", .str "Alice")]

/-- Metadata for the C5 witness document. -/
def C5w_meta : DocumentMetadata :=
  { id := "d1", name := "Plan", page_count := 1, modified_at := 0,
    created_at := 0, owner_id := some "alice", owner_name := some "Alice" }

/-- Store holding the C5 witness document. -/
def C5w_state : StoreState :=
  { index := [("d1", C5w_meta)], docsDir := [("d1", .obj C5w_fields)],
    indexFile := some [("d1", C5w_meta)] }

/-- C5 witness: transferring `d1` from alice to bob succeeds and leaves an
index entry owned by bob with no share entry for bob. -/
theorem C5_transfer_witness :
    (transfer_ownership C5w_state "d1" "bob" "Bob" "alice" 99).1 = .ok () ∧
    ∃ m, alistLookup
        (transfer_ownership C5w_state "d1" "bob" "Bob" "alice" 99).2.index
        "d1" = some m ∧
      m.owner_id = some "bob" ∧
      ∀ sh ∈ m.shared_with.getD [], sh.user_id ≠ "bob" :=
  C5_transfer_removes_new_owner_from_shares C5w_state "d1" "bob" "Bob" "alice"
    99 C5w_fields rfl rfl rfl (by decide)
